import Mathlib

/-!
Shallow embedding of the view-state engine of `src/src/App.js` (YBIT Voice
frontend, a React single-page client).  The component state (session, cache
of suggestions, detail-view selection, notification) is modelled as explicit
Lean structures; every event handler of the source becomes a pure function
from the pre-state and the environment response (the outcome of the `fetch`
round-trip, the result of `window.confirm`, ...) to the post-state together
with the list of network requests issued and the notifications emitted.
Machine details abstracted: `createdAt` date strings are represented by
their parsed numeric timestamps (an `Int`), and the stable JavaScript
`Array.prototype.sort` is modelled by `List.insertionSort`, which is a
stable sort for the same comparator preorder.
-/

namespace YbitVoice

/-- Suggestion record as consumed by `App.js`.  Fields the code reads
defensively (`s.title || ""`) are `Option`-typed; `_id` is renamed `sid`. -/
structure Suggestion where
  sid : String
  title : Option String
  description : Option String
  category : String
  status : String
  email : String
  department : Option String
  updatedBy : Option String
  createdAt : Int
  updatedAt : Option Int
deriving Repr, DecidableEq

/-- The four filter controls (lines 20-23 of App.js). -/
structure FilterControls where
  statusFilter : String
  categoryFilter : String
  searchTerm : String
  sortOrder : String
deriving Repr, DecidableEq

/-- Notification value as set by `showNotification` (line 31): a message and
a severity type, default "success". -/
structure Notification where
  message : String
  ntype : String
deriving Repr, DecidableEq

/-- Character-list prefix test, Bool-valued (model of the substring search
underlying `String.prototype.includes`). -/
def charsStartWith : List Char → List Char → Bool
  | [], _ => true
  | _ :: _, [] => false
  | p :: ps, c :: cs => p == c && charsStartWith ps cs

/-- Character-list infix test: does `pat` occur contiguously in the list? -/
def charsInfix (pat : List Char) : List Char → Bool
  | [] => charsStartWith pat []
  | c :: cs => charsStartWith pat (c :: cs) || charsInfix pat cs

/-- Model of JavaScript `s.includes(pat)` on strings. -/
def strIncludes (s pat : String) : Bool :=
  charsInfix pat.toList s.toList

/-- Model of JavaScript `s.toLowerCase()`: lower-case every character. -/
def strLower (s : String) : String :=
  String.mk (s.data.map Char.toLower)

/-- Status predicate of the pipeline (line 197):
`statusFilter === "all" ? true : s.status === statusFilter`. -/
def matchesStatus (statusFilter : String) (s : Suggestion) : Bool :=
  if statusFilter = "all" then true else s.status == statusFilter

/-- Category predicate of the pipeline (line 198). -/
def matchesCategory (categoryFilter : String) (s : Suggestion) : Bool :=
  if categoryFilter = "all" then true else s.category == categoryFilter

/-- Search predicate of the pipeline (lines 199-202): case-insensitive
substring match of the search term against title OR description, with
missing fields read as the empty string. -/
def matchesSearch (searchTerm : String) (s : Suggestion) : Bool :=
  strIncludes (strLower (s.title.getD "")) (strLower searchTerm) ||
  strIncludes (strLower (s.description.getD "")) (strLower searchTerm)

/-- Conjunction of the three pipeline predicates. -/
def pipelinePred (c : FilterControls) (s : Suggestion) : Bool :=
  matchesStatus c.statusFilter s && matchesCategory c.categoryFilter s &&
    matchesSearch c.searchTerm s

/-- Comparator preorder of the sort step (lines 203-207): `sortLe o a b`
holds when the JavaScript comparator keeps `a` no later than `b`, i.e. when
`cmp(a,b) <= 0`.  For `newest` the comparator is
`new Date(b.createdAt) - new Date(a.createdAt)` (descending timestamps),
otherwise ascending. -/
def sortLe (sortOrder : String) (a b : Suggestion) : Bool :=
  if sortOrder = "newest" then b.createdAt ≤ a.createdAt
  else a.createdAt ≤ b.createdAt

/-- The derived list `filteredSuggestions` (lines 196-207): three filters
then a stable sort by the comparator.  JavaScript `Array.prototype.sort` is
stable, and it is applied to the fresh array produced by `.filter`, so the
cache itself is never mutated; the stable sort is modelled by
`List.insertionSort`. -/
def filteredSuggestions (cache : List Suggestion) (c : FilterControls) :
    List Suggestion :=
  (((cache.filter (matchesStatus c.statusFilter)).filter
      (matchesCategory c.categoryFilter)).filter
      (matchesSearch c.searchTerm)).insertionSort
    (fun a b => sortLe c.sortOrder a b = true)

/-- Session identity state (lines 11-15 of App.js): `loggedIn`, `email`,
`isAdmin`, `isPrincipal`, `department`. -/
structure Session where
  loggedIn : Bool
  email : String
  isAdmin : Bool
  isPrincipal : Bool
  department : String
deriving Repr, DecidableEq

/-- Initial value of the session states (all useState defaults). -/
def emptySession : Session := ⟨false, "", false, false, ""⟩

/-- Complete component state: session, suggestion cache, detail-view
selection, current notification, loading flag. -/
structure AppState where
  session : Session
  suggestions : List Suggestion
  viewSuggestion : Option Suggestion
  notification : Option Notification
  loading : Bool
deriving Repr, DecidableEq

/-- Initial component state (all useState defaults). -/
def initialState : AppState := ⟨emptySession, [], none, none, false⟩

/-- Network requests the component can issue, identified by endpoint and the
data placed in the URL or body (section 6 of the spec; fetch calls in
App.js). -/
inductive Request where
  | authGoogle (token : String)
  | loadAdmin (email : String)
  | loadStudent (email : String)
  | createSuggestion (email category title description : String)
  | deleteSuggestion (sid : String)
  | patchStatus (sid status updatedBy : String)
  | viewAdmin (sid : String)
  | viewStudent (sid : String) (email : String)
deriving Repr, DecidableEq

/-- Session email embedded in a request, if any: the list and student-view
URLs carry `?email=` and the create body carries `email`. -/
def Request.sessionEmail : Request → Option String
  | .loadAdmin e => some e
  | .loadStudent e => some e
  | .createSuggestion e _ _ _ => some e
  | .viewStudent _ e => some e
  | _ => none

/-- Result of running one event handler: the post-state, the network
requests issued (in order), and the notifications emitted via
`showNotification` (in order; the last one is the final
`state.notification`). -/
structure OpResult where
  state : AppState
  requests : List Request
  emitted : List Notification
deriving Repr, DecidableEq

/-- Parsed JSON body of a 2xx list response: an array, or some non-array
value (line 111 guards with `Array.isArray`). -/
inductive LoadBody where
  | arr (items : List Suggestion)
  | notArray
deriving Repr, DecidableEq

/-- Outcome of the list fetch in `loadSuggestions`: 2xx with a parsed body,
a non-2xx response (whose error body parsed), or a thrown network or JSON
parse error (the catch block). -/
inductive LoadResponse where
  | ok (body : LoadBody)
  | httpError
  | netError
deriving Repr, DecidableEq

/-- Embedding of `loadSuggestions` (App.js lines 94-117).  Guard: returns
without any request when `email` is falsy.  On 2xx, replaces the cache with
the array (or `[]` when the body is not an array) and emits nothing; on
non-2xx or a thrown error, empties the cache and emits an error
notification. -/
def loadSuggestions (st : AppState) (resp : LoadResponse) : OpResult :=
  if st.session.email = "" then ⟨st, [], []⟩
  else
    let req := if st.session.isAdmin then Request.loadAdmin st.session.email
               else Request.loadStudent st.session.email
    match resp with
    | .ok (.arr items) => ⟨{ st with suggestions := items }, [req], []⟩
    | .ok .notArray => ⟨{ st with suggestions := [] }, [req], []⟩
    | .httpError =>
        let n : Notification := ⟨"Failed to load suggestions", "error"⟩
        ⟨{ st with suggestions := [], notification := some n }, [req], [n]⟩
    | .netError =>
        let n : Notification := ⟨"Failed to load suggestions. Check console.", "error"⟩
        ⟨{ st with suggestions := [], notification := some n }, [req], [n]⟩

/-- Embedding of `handleRefresh` (lines 124-129): sets the loading flag,
runs `loadSuggestions`, clears the flag, then always emits the info
notification "Suggestions refreshed". -/
def handleRefresh (st : AppState) (resp : LoadResponse) : OpResult :=
  let mid := loadSuggestions { st with loading := true } resp
  let n : Notification := ⟨"Suggestions refreshed", "info"⟩
  ⟨{ mid.state with loading := false, notification := some n },
    mid.requests, mid.emitted ++ [n]⟩

/-- Outcome of the DELETE round-trip: 2xx ack, non-2xx with an optional
`error` field in the body, or a thrown error. -/
inductive DeleteResponse where
  | ok
  | httpError (errField : Option String)
  | netError
deriving Repr, DecidableEq

/-- Embedding of `handleDelete` (lines 132-148).  `confirmed` is the result
of `window.confirm`; when declined the handler returns before doing
anything.  On 2xx, keeps exactly the cache records whose `_id` differs from
`id`, clears the selection when it shows that `id`, and notifies success;
otherwise the cache and selection are untouched and an error is notified. -/
def handleDelete (st : AppState) (sid : String) (confirmed : Bool)
    (resp : DeleteResponse) : OpResult :=
  if !confirmed then ⟨st, [], []⟩
  else
    let req := Request.deleteSuggestion sid
    match resp with
    | .ok =>
        let n : Notification := ⟨"Suggestion deleted successfully!", "success"⟩
        ⟨{ st with
            suggestions := st.suggestions.filter (fun s => s.sid != sid),
            viewSuggestion := match st.viewSuggestion with
              | some v => if v.sid = sid then none else some v
              | none => none,
            notification := some n }, [req], [n]⟩
    | .httpError errField =>
        let n : Notification := ⟨errField.getD "Delete failed", "error"⟩
        ⟨{ st with notification := some n }, [req], [n]⟩
    | .netError =>
        let n : Notification := ⟨"Delete failed. Check console.", "error"⟩
        ⟨{ st with notification := some n }, [req], [n]⟩

/-- Outcome of the PATCH round-trip: 2xx with the updated record parsed
from the body, non-2xx with an optional `error` field, or a thrown error. -/
inductive PatchResponse where
  | ok (updated : Suggestion)
  | httpError (errField : Option String)
  | netError
deriving Repr, DecidableEq

/-- Embedding of `handleStatusChange` (lines 151-172).  Sends
`{status, updatedBy}` with `updatedBy` derived from `isPrincipal`; on 2xx
replaces the matching cache entry (and the selection, when it shows that
`id`) with the server record and emits the success message with the status
name wrapped in double quotes (line 164). -/
def handleStatusChange (st : AppState) (sid status : String)
    (resp : PatchResponse) : OpResult :=
  let updatedBy := if st.session.isPrincipal then "Principal" else "HOD"
  let req := Request.patchStatus sid status updatedBy
  match resp with
  | .ok updated =>
      let n : Notification :=
        ⟨"Status updated to \"" ++ status ++ "\"", "success"⟩
      ⟨{ st with
          suggestions := st.suggestions.map
            (fun s => if s.sid == sid then updated else s),
          viewSuggestion := match st.viewSuggestion with
            | some v => if v.sid = sid then some updated else some v
            | none => none,
          notification := some n }, [req], [n]⟩
  | .httpError errField =>
      let n : Notification := ⟨errField.getD "Status update failed", "error"⟩
      ⟨{ st with notification := some n }, [req], [n]⟩
  | .netError =>
      let n : Notification := ⟨"Status update failed. Check console.", "error"⟩
      ⟨{ st with notification := some n }, [req], [n]⟩

/-- Outcome of the detail-view GET: 2xx with the record, non-2xx with an
optional `error` field, or a thrown error. -/
inductive ViewResponse where
  | ok (data : Suggestion)
  | httpError (errField : Option String)
  | netError
deriving Repr, DecidableEq

/-- Embedding of `handleView` (lines 175-192): fetches the role-appropriate
detail URL (the student URL embeds the session email) and sets the
selection on 2xx; otherwise the selection is untouched and an error is
notified. -/
def handleView (st : AppState) (sid : String) (resp : ViewResponse) : OpResult :=
  let req := if st.session.isAdmin then Request.viewAdmin sid
             else Request.viewStudent sid st.session.email
  match resp with
  | .ok data => ⟨{ st with viewSuggestion := some data }, [req], []⟩
  | .httpError errField =>
      let n : Notification :=
        ⟨errField.getD "Failed to load suggestion details", "error"⟩
      ⟨{ st with notification := some n }, [req], [n]⟩
  | .netError =>
      let n : Notification :=
        ⟨"Failed to load suggestion details. Check console.", "error"⟩
      ⟨{ st with notification := some n }, [req], [n]⟩

/-- Embedding of `closeView` (line 193). -/
def closeView (st : AppState) : AppState := { st with viewSuggestion := none }

/-- Outcome of the create POST: 2xx ack, non-2xx with an optional `error`
field, or a thrown error. -/
inductive CreateResponse where
  | ok
  | httpError (errField : Option String)
  | netError
deriving Repr, DecidableEq

/-- Embedding of the suggestion-form submit handler (lines 311-332): POSTs
`{email, category, title, description}` with the session email; on 2xx it
re-runs `loadSuggestions` (with outcome `loadResp`) and then notifies
success; on failure the cache is untouched. -/
def handleCreate (st : AppState) (category title description : String)
    (resp : CreateResponse) (loadResp : LoadResponse) : OpResult :=
  let req := Request.createSuggestion st.session.email category title description
  match resp with
  | .ok =>
      let after := loadSuggestions st loadResp
      let n : Notification := ⟨"Suggestion submitted!", "success"⟩
      ⟨{ after.state with notification := some n },
        req :: after.requests, after.emitted ++ [n]⟩
  | .httpError errField =>
      let n : Notification := ⟨errField.getD "Submit failed", "error"⟩
      ⟨{ st with notification := some n }, [req], [n]⟩
  | .netError =>
      let n : Notification := ⟨"Submit failed. Check console.", "error"⟩
      ⟨{ st with notification := some n }, [req], [n]⟩

/-- Embedding of `handleLogout` (lines 210-221): resets every state to its
default, then emits the info notification (which becomes the current
notification). -/
def handleLogout (st : AppState) : OpResult :=
  let n : Notification := ⟨"Logged out successfully", "info"⟩
  let _ := st
  ⟨⟨emptySession, [], none, some n, false⟩, [], [n]⟩

/-- Parsed 2xx body of the auth exchange, or its failure modes.  The
optional fields model `result.isAdmin || false`, `result.isPrincipal ||
false` and `result.department || ""` (lines 49-51). -/
inductive AuthExchange where
  | ok (email : String) (adminField principalField : Option Bool)
      (departmentField : Option String)
  | httpError (errField : Option String)
  | netError
deriving Repr, DecidableEq

/-- An auth exchange outcome that is not a 2xx success. -/
def AuthExchange.isFailure : AuthExchange → Bool
  | .ok _ _ _ _ => false
  | .httpError _ => true
  | .netError => true

/-- Embedding of `handleCredentialResponse` (lines 36-61).  `credential` is
the optional token in the widget response; when missing the handler
notifies and returns before the fetch.  On 2xx all session fields are set
(with defaults applied) and `loggedIn` becomes true; on failure the session
is untouched and an error is notified. -/
def handleCredentialResponse (st : AppState) (credential : Option String)
    (resp : AuthExchange) : OpResult :=
  match credential with
  | none =>
      let n : Notification := ⟨"No credential returned", "error"⟩
      ⟨{ st with notification := some n }, [], [n]⟩
  | some tok =>
      let req := Request.authGoogle tok
      match resp with
      | .ok email adminField principalField departmentField =>
          let n : Notification := ⟨"Logged in successfully!", "success"⟩
          ⟨{ st with
              session := ⟨true, email, adminField.getD false,
                principalField.getD false, departmentField.getD ""⟩,
              notification := some n }, [req], [n]⟩
      | .httpError errField =>
          let n : Notification := ⟨errField.getD "Login failed", "error"⟩
          ⟨{ st with notification := some n }, [req], [n]⟩
      | .netError =>
          let n : Notification := ⟨"Login error. Check console.", "error"⟩
          ⟨{ st with notification := some n }, [req], [n]⟩

/-- One transition of the component: any handler fired with any environment
response. -/
inductive Step : AppState → AppState → Prop where
  | login (st : AppState) (credential : Option String) (resp : AuthExchange) :
      Step st (handleCredentialResponse st credential resp).state
  | load (st : AppState) (resp : LoadResponse) :
      Step st (loadSuggestions st resp).state
  | refresh (st : AppState) (resp : LoadResponse) :
      Step st (handleRefresh st resp).state
  | create (st : AppState) (category title description : String)
      (resp : CreateResponse) (loadResp : LoadResponse) :
      Step st (handleCreate st category title description resp loadResp).state
  | del (st : AppState) (sid : String) (confirmed : Bool) (resp : DeleteResponse) :
      Step st (handleDelete st sid confirmed resp).state
  | statusChange (st : AppState) (sid status : String) (resp : PatchResponse) :
      Step st (handleStatusChange st sid status resp).state
  | view (st : AppState) (sid : String) (resp : ViewResponse) :
      Step st (handleView st sid resp).state
  | closeV (st : AppState) : Step st (closeView st)
  | logout (st : AppState) : Step st (handleLogout st).state

/-- States reachable from the initial component state through handler
invocations. -/
inductive Reachable : AppState → Prop where
  | init : Reachable initialState
  | step {s t : AppState} : Reachable s → Step s t → Reachable t

/-- One call to `showNotification`: its absolute time in milliseconds and
its message. -/
structure NotifyCall where
  time : Nat
  message : String
deriving Repr, DecidableEq

/-- Timer events generated by a sequence of `showNotification` calls: each
call sets its message at its own time, and — because line 32 never stores or
cancels the timeout handle — each call also unconditionally clears the
notification 4000 ms later. -/
def notifyEvents (calls : List NotifyCall) : List (Nat × Option String) :=
  calls.map (fun c => (c.time, some c.message)) ++
    calls.map (fun c => (c.time + 4000, (none : Option String)))

/-- Chronological insertion (stable on equal times). -/
def insertByTime (e : Nat × Option String) :
    List (Nat × Option String) → List (Nat × Option String)
  | [] => [e]
  | f :: fs => if e.1 ≤ f.1 then e :: f :: fs else f :: insertByTime e fs

/-- Chronological sort of an event list. -/
def sortByTime (l : List (Nat × Option String)) : List (Nat × Option String) :=
  l.foldr insertByTime []

/-- Notification visible at time `t` given a history of `showNotification`
calls: the events up to `t` applied in chronological order to an initially
empty slot. -/
def visibleNotification (calls : List NotifyCall) (t : Nat) : Option String :=
  (sortByTime ((notifyEvents calls).filter (fun e => e.1 ≤ t))).foldl
    (fun _ e => e.2) none

/-! Helper lemmas shared by the claim theorems. -/

theorem sortLe_total (o : String) (a b : Suggestion) :
    sortLe o a b = true ∨ sortLe o b a = true := by
  by_cases h : o = "newest" <;> simp [sortLe, h] <;> omega

theorem sortLe_trans (o : String) (a b c : Suggestion) :
    sortLe o a b = true → sortLe o b c = true → sortLe o a c = true := by
  by_cases h : o = "newest" <;> simp [sortLe, h] <;> omega

theorem sortLe_of_createdAt_eq (o : String) (a b : Suggestion)
    (h : a.createdAt = b.createdAt) : sortLe o a b = true := by
  by_cases ho : o = "newest" <;> simp [sortLe, ho, h]

theorem loadSuggestions_session (st : AppState) (resp : LoadResponse) :
    (loadSuggestions st resp).state.session = st.session := by
  by_cases h : st.session.email = "" <;>
    cases resp with
    | ok body => cases body <;> simp [loadSuggestions, h]
    | _ => simp [loadSuggestions, h]

theorem handleRefresh_session (st : AppState) (resp : LoadResponse) :
    (handleRefresh st resp).state.session = st.session := by
  have := loadSuggestions_session { st with loading := true } resp
  simpa [handleRefresh] using this

theorem handleCreate_session (st : AppState) (category title description : String)
    (resp : CreateResponse) (loadResp : LoadResponse) :
    (handleCreate st category title description resp loadResp).state.session
      = st.session := by
  cases resp with
  | ok =>
      have := loadSuggestions_session st loadResp
      simpa [handleCreate] using this
  | httpError errField => rfl
  | netError => rfl

theorem handleDelete_session (st : AppState) (sid : String) (confirmed : Bool)
    (resp : DeleteResponse) :
    (handleDelete st sid confirmed resp).state.session = st.session := by
  cases confirmed <;> cases resp <;> rfl

theorem handleStatusChange_session (st : AppState) (sid status : String)
    (resp : PatchResponse) :
    (handleStatusChange st sid status resp).state.session = st.session := by
  cases resp <;> rfl

theorem handleView_session (st : AppState) (sid : String) (resp : ViewResponse) :
    (handleView st sid resp).state.session = st.session := by
  cases resp <;> rfl

/-! Claim theorems. -/

/-- C1: the code violates the claim.  `showNotification` (lines 30-33) never
stores or cancels the previous timeout, so after `notify("A")` at t=0 and
`notify("B")` at t=1000, B is indeed the only visible notification at
t=2000, but the stale timer of A fires at t=4000 and clears B before the
deadline of B at t=5000: at t=4500 nothing is visible. -/
theorem c1_stale_timer_clears_replacement :
    visibleNotification [⟨0, "A"⟩, ⟨1000, "B"⟩] 2000 = some "B" ∧
    visibleNotification [⟨0, "A"⟩, ⟨1000, "B"⟩] 4500 = none ∧
    4500 < 1000 + 4000 := by decide

/-- C2 counterexample: with a two-record cache in ascending `createdAt`
order and pass-through filters, the `newest` pipeline output reverses the
cache, so it is not a subsequence (sublist) of the cache as the claim
literally states. -/
theorem c2_not_a_subsequence :
    filteredSuggestions
        [⟨"1", none, none, "other", "pending", "e", none, none, 1, none⟩,
         ⟨"2", none, none, "other", "resolved", "e", none, none, 2, none⟩]
        ⟨"all", "all", "", "newest"⟩ =
      [⟨"2", none, none, "other", "resolved", "e", none, none, 2, none⟩,
       ⟨"1", none, none, "other", "pending", "e", none, none, 1, none⟩] ∧
    ¬ List.Sublist
        (filteredSuggestions
          [⟨"1", none, none, "other", "pending", "e", none, none, 1, none⟩,
           ⟨"2", none, none, "other", "resolved", "e", none, none, 2, none⟩]
          ⟨"all", "all", "", "newest"⟩)
        [⟨"1", none, none, "other", "pending", "e", none, none, 1, none⟩,
         ⟨"2", none, none, "other", "resolved", "e", none, none, 2, none⟩] := by
  decide

/-- C2 (amended: the output is a re-ordering — permutation — of the
subsequence of the cache satisfying the three predicates, rather than
itself a subsequence): the pipeline output is a permutation of the
filtered cache, contains exactly the records satisfying the status,
category and search predicates simultaneously, is sorted by `createdAt`
descending when `sortOrder` is "newest" and ascending otherwise, and
tie-breaking is stable: records with equal timestamps keep their relative
cache order.  The pipeline is a pure function of the cache and the
controls, so re-running it with identical inputs yields an identical
sequence and the cache is never mutated. -/
theorem c2_filter_pipeline (cache : List Suggestion) (c : FilterControls) :
    List.Perm (filteredSuggestions cache c)
      (((cache.filter (matchesStatus c.statusFilter)).filter
        (matchesCategory c.categoryFilter)).filter (matchesSearch c.searchTerm)) ∧
    (∀ s, s ∈ filteredSuggestions cache c ↔
      s ∈ cache ∧ pipelinePred c s = true) ∧
    (c.sortOrder = "newest" →
      (filteredSuggestions cache c).Pairwise
        (fun a b => b.createdAt ≤ a.createdAt)) ∧
    (c.sortOrder ≠ "newest" →
      (filteredSuggestions cache c).Pairwise
        (fun a b => a.createdAt ≤ b.createdAt)) ∧
    (∀ a b, a.createdAt = b.createdAt →
      List.Sublist [a, b]
        (((cache.filter (matchesStatus c.statusFilter)).filter
          (matchesCategory c.categoryFilter)).filter (matchesSearch c.searchTerm)) →
      List.Sublist [a, b] (filteredSuggestions cache c)) := by
  refine ⟨List.perm_insertionSort _ _, ?_, ?_, ?_, ?_⟩
  · intro s
    simp only [filteredSuggestions, List.mem_insertionSort, List.mem_filter,
      pipelinePred, Bool.and_eq_true, and_assoc]
  · intro ho
    haveI : IsTotal Suggestion (fun a b => sortLe c.sortOrder a b = true) :=
      ⟨sortLe_total c.sortOrder⟩
    haveI : IsTrans Suggestion (fun a b => sortLe c.sortOrder a b = true) :=
      ⟨sortLe_trans c.sortOrder⟩
    have hs := List.sorted_insertionSort
      (fun a b => sortLe c.sortOrder a b = true)
      (((cache.filter (matchesStatus c.statusFilter)).filter
        (matchesCategory c.categoryFilter)).filter (matchesSearch c.searchTerm))
    refine hs.imp ?_
    intro a b hab
    simpa [sortLe, ho] using hab
  · intro ho
    haveI : IsTotal Suggestion (fun a b => sortLe c.sortOrder a b = true) :=
      ⟨sortLe_total c.sortOrder⟩
    haveI : IsTrans Suggestion (fun a b => sortLe c.sortOrder a b = true) :=
      ⟨sortLe_trans c.sortOrder⟩
    have hs := List.sorted_insertionSort
      (fun a b => sortLe c.sortOrder a b = true)
      (((cache.filter (matchesStatus c.statusFilter)).filter
        (matchesCategory c.categoryFilter)).filter (matchesSearch c.searchTerm))
    refine hs.imp ?_
    intro a b hab
    simpa [sortLe, ho] using hab
  · intro a b hab hsub
    exact List.sublist_insertionSort
      (List.pairwise_pair.mpr (sortLe_of_createdAt_eq c.sortOrder a b hab)) hsub

/-- C2 witness: the amended theorem applied to a concrete cache holding two
records with equal timestamps (stability: their cache order is preserved)
under the "newest" sort order (sortedness). -/
theorem c2_filter_pipeline_witness :
    List.Sublist
      [(⟨"1", none, none, "other", "pending", "e", none, none, 5, none⟩ : Suggestion),
       ⟨"2", none, none, "other", "resolved", "e", none, none, 5, none⟩]
      (filteredSuggestions
        [⟨"1", none, none, "other", "pending", "e", none, none, 5, none⟩,
         ⟨"2", none, none, "other", "resolved", "e", none, none, 5, none⟩]
        ⟨"all", "all", "", "newest"⟩) ∧
    (filteredSuggestions
        [⟨"1", none, none, "other", "pending", "e", none, none, 5, none⟩,
         ⟨"2", none, none, "other", "resolved", "e", none, none, 5, none⟩]
        ⟨"all", "all", "", "newest"⟩).Pairwise
      (fun a b => b.createdAt ≤ a.createdAt) :=
  ⟨(c2_filter_pipeline _ _).2.2.2.2 _ _ rfl (by decide),
   (c2_filter_pipeline _ _).2.2.1 rfl⟩

/-- C3 counterexample: immediately after `handleLogout`, the session is
empty, yet `handleView` (guardless, lines 175-192) still issues the
student-view request with the empty session email embedded in its URL — an
identity-requiring network call issued from the empty session. -/
theorem c3_view_leaks_empty_identity :
    (handleLogout initialState).state.session = emptySession ∧
    (handleView (handleLogout initialState).state "1"
        ViewResponse.netError).requests = [Request.viewStudent "1" ""] ∧
    Request.sessionEmail (Request.viewStudent "1" "") = some "" := by
  decide

/-- C3 (amended: only `load` carries an identity guard; `remove` and
`changeStatus` issue calls carrying no session email, though `changeStatus`
still derives `updatedBy` = "HOD" from the empty role; `view` and `create`
do issue network calls embedding the empty session email): behaviour of
every CRUD operation invoked on the post-logout (empty) session. -/
theorem c3_post_logout_requests (st : AppState) (h : st.session = emptySession) :
    (∀ resp, (loadSuggestions st resp).requests = []) ∧
    (∀ sid confirmed resp, ∀ r ∈ (handleDelete st sid confirmed resp).requests,
      Request.sessionEmail r = none) ∧
    (∀ sid status resp, ∀ r ∈ (handleStatusChange st sid status resp).requests,
      r = Request.patchStatus sid status "HOD") ∧
    (∀ sid resp, (handleView st sid resp).requests =
      [Request.viewStudent sid ""]) ∧
    (∀ category title description resp loadResp,
      (handleCreate st category title description resp loadResp).requests =
        [Request.createSuggestion "" category title description]) := by
  refine ⟨?_, ?_, ?_, ?_, ?_⟩
  · intro resp
    simp [loadSuggestions, h, emptySession]
  · intro sid confirmed resp r hr
    cases confirmed with
    | false => simp [handleDelete] at hr
    | true =>
        cases resp <;> simp [handleDelete] at hr <;>
          simp [hr, Request.sessionEmail]
  · intro sid status resp r hr
    cases resp <;> simp [handleStatusChange, h, emptySession] at hr <;>
      simp [hr]
  · intro sid resp
    cases resp <;> simp [handleView, h, emptySession]
  · intro category title description resp loadResp
    cases resp <;> simp [handleCreate, loadSuggestions, h, emptySession]

/-- C3 witness: the amended theorem applied to the concrete post-logout
state. -/
theorem c3_post_logout_requests_witness :
    (loadSuggestions (handleLogout initialState).state
        LoadResponse.netError).requests = [] ∧
    (handleView (handleLogout initialState).state "7"
        ViewResponse.netError).requests = [Request.viewStudent "7" ""] :=
  ⟨(c3_post_logout_requests _ rfl).1 _,
   (c3_post_logout_requests _ rfl).2.2.2.1 "7" _⟩

/-- C4 counterexample: a successful `changeStatus(1, "resolved")` emits the
message with the status name wrapped in double quotes (line 164), which
differs from the claimed message "Status updated to resolved". -/
theorem c4_message_has_quotes :
    (handleStatusChange initialState "1" "resolved"
        (PatchResponse.ok
          ⟨"1", none, none, "other", "resolved", "e", none, some "HOD", 1,
            none⟩)).emitted =
      [⟨"Status updated to \"resolved\"", "success"⟩] ∧
    ("Status updated to \"resolved\"" : String) ≠
      "Status updated to resolved" := by
  decide

/-- C4 (amended: the success message is the text `Status updated to `
followed by the status name wrapped in double quotes): a successful
`changeStatus(id, newStatus)` sends `{status, updatedBy}` with `updatedBy`
"Principal" when `isPrincipal` holds and "HOD" otherwise, replaces the
matching cache entry with the server-returned record, and emits that
success notification. -/
theorem c4_status_change (st : AppState) (sid status : String)
    (updated : Suggestion) :
    (handleStatusChange st sid status (PatchResponse.ok updated)).requests =
      [Request.patchStatus sid status
        (if st.session.isPrincipal then "Principal" else "HOD")] ∧
    (handleStatusChange st sid status (PatchResponse.ok updated)).state.suggestions =
      st.suggestions.map (fun s => if s.sid == sid then updated else s) ∧
    (handleStatusChange st sid status (PatchResponse.ok updated)).emitted =
      [⟨"Status updated to \"" ++ status ++ "\"", "success"⟩] :=
  ⟨rfl, rfl, rfl⟩

/-- C5: `load()` replaces the cache wholesale with the fetched list on
success; on a non-2xx response or a thrown network/parse error it sets the
cache to the empty list and emits an error notification; and with no
intervening mutation (the same server response) a second call yields the
same cache content. -/
theorem c5_load (st : AppState) (h : ¬ st.session.email = "") :
    (∀ items, (loadSuggestions st
      (LoadResponse.ok (LoadBody.arr items))).state.suggestions = items) ∧
    ((loadSuggestions st LoadResponse.httpError).state.suggestions = [] ∧
     (loadSuggestions st LoadResponse.httpError).emitted =
       [⟨"Failed to load suggestions", "error"⟩]) ∧
    ((loadSuggestions st LoadResponse.netError).state.suggestions = [] ∧
     (loadSuggestions st LoadResponse.netError).emitted =
       [⟨"Failed to load suggestions. Check console.", "error"⟩]) ∧
    (∀ resp, (loadSuggestions (loadSuggestions st resp).state resp).state.suggestions
      = (loadSuggestions st resp).state.suggestions) := by
  refine ⟨?_, ?_, ?_, ?_⟩
  · intro items
    simp [loadSuggestions, h]
  · constructor <;> simp [loadSuggestions, h]
  · constructor <;> simp [loadSuggestions, h]
  · intro resp
    cases resp with
    | ok body => cases body <;> simp [loadSuggestions, h]
    | httpError => simp [loadSuggestions, h]
    | netError => simp [loadSuggestions, h]

/-- C5 witness: the theorem applied to a concrete logged-in state. -/
theorem c5_load_witness :
    (loadSuggestions
        ⟨⟨true, "s@ybit.ac.in", false, false, ""⟩,
          [⟨"1", none, none, "other", "pending", "e", none, none, 1, none⟩],
          none, none, false⟩
        LoadResponse.httpError).state.suggestions = [] :=
  ((c5_load _ (by decide)).2.1).1

/-- C6: a successful confirmed `remove(id)` keeps exactly the cache records
whose identity differs from `id`; it clears the Detail View Selection when
the selection shows that `id` and leaves it untouched otherwise; on failure
the cache and the selection are unchanged. -/
theorem c6_delete (st : AppState) (sid : String) :
    (∀ s, s ∈ (handleDelete st sid true DeleteResponse.ok).state.suggestions ↔
      s ∈ st.suggestions ∧ s.sid ≠ sid) ∧
    ((handleDelete st sid true DeleteResponse.ok).state.suggestions =
      st.suggestions.filter (fun s => s.sid != sid)) ∧
    (∀ v, st.viewSuggestion = some v → v.sid = sid →
      (handleDelete st sid true DeleteResponse.ok).state.viewSuggestion = none) ∧
    (∀ v, st.viewSuggestion = some v → v.sid ≠ sid →
      (handleDelete st sid true DeleteResponse.ok).state.viewSuggestion = some v) ∧
    (∀ errField,
      (handleDelete st sid true (DeleteResponse.httpError errField)).state.suggestions
        = st.suggestions ∧
      (handleDelete st sid true (DeleteResponse.httpError errField)).state.viewSuggestion
        = st.viewSuggestion) ∧
    ((handleDelete st sid true DeleteResponse.netError).state.suggestions
        = st.suggestions ∧
     (handleDelete st sid true DeleteResponse.netError).state.viewSuggestion
        = st.viewSuggestion) := by
  refine ⟨?_, rfl, ?_, ?_, ?_, ⟨rfl, rfl⟩⟩
  · intro s
    simp [handleDelete, List.mem_filter, bne_iff_ne]
  · intro v hv he
    simp [handleDelete, hv, he]
  · intro v hv hne
    simp [handleDelete, hv, hne]
  · intro errField
    exact ⟨rfl, rfl⟩

/-- C6 witness: deleting the record currently selected clears the
selection. -/
theorem c6_delete_witness :
    (handleDelete
        ⟨emptySession,
          [⟨"1", none, none, "other", "pending", "e", none, none, 1, none⟩],
          some ⟨"1", none, none, "other", "pending", "e", none, none, 1, none⟩,
          none, false⟩
        "1" true DeleteResponse.ok).state.viewSuggestion = none :=
  (c6_delete _ "1").2.2.1 _ rfl rfl

/-- C7: a successful `changeStatus` response for a record other than the
current Detail View Selection leaves the selection unchanged; only when the
id matches is the selection replaced with the returned record. -/
theorem c7_status_change_selection (st : AppState) (sid status : String)
    (updated : Suggestion) :
    (st.viewSuggestion = none →
      (handleStatusChange st sid status
        (PatchResponse.ok updated)).state.viewSuggestion = none) ∧
    (∀ v, st.viewSuggestion = some v → v.sid ≠ sid →
      (handleStatusChange st sid status
        (PatchResponse.ok updated)).state.viewSuggestion = some v) ∧
    (∀ v, st.viewSuggestion = some v → v.sid = sid →
      (handleStatusChange st sid status
        (PatchResponse.ok updated)).state.viewSuggestion = some updated) := by
  refine ⟨?_, ?_, ?_⟩
  · intro hn
    simp [handleStatusChange, hn]
  · intro v hv hne
    simp [handleStatusChange, hv, hne]
  · intro v hv he
    simp [handleStatusChange, hv, he]

/-- C7 witness: a status change for id "2" leaves a selection showing id
"1" untouched. -/
theorem c7_status_change_selection_witness :
    (handleStatusChange
        ⟨emptySession, [],
          some ⟨"1", none, none, "other", "pending", "e", none, none, 1, none⟩,
          none, false⟩
        "2" "resolved"
        (PatchResponse.ok
          ⟨"2", none, none, "other", "resolved", "e", none, some "HOD", 2,
            none⟩)).state.viewSuggestion =
      some ⟨"1", none, none, "other", "pending", "e", none, none, 1, none⟩ :=
  (c7_status_change_selection _ "2" "resolved" _).2.1 _ rfl (by decide)

/-- C8: when the user declines the delete confirmation, `remove(id)` is a
silent no-op — the state (cache included) is unchanged, no network request
is issued, and no notification is emitted. -/
theorem c8_declined_delete (st : AppState) (sid : String) (resp : DeleteResponse) :
    handleDelete st sid false resp = ⟨st, [], []⟩ :=
  rfl

/-- C9: in every reachable state, `loggedIn = false` implies the session is
exactly the empty session (all identity fields at their defaults); logout
always restores the empty session; and a failed credential exchange (missing
credential, non-2xx, or thrown error) leaves the session untouched — so a
failed login never partially populates it. -/
theorem c9_session_atomicity :
    (∀ st, Reachable st → st.session.loggedIn = false →
      st.session = emptySession) ∧
    (∀ st, (handleLogout st).state.session = emptySession) ∧
    (∀ st credential resp,
      (credential = none ∨ AuthExchange.isFailure resp = true) →
      (handleCredentialResponse st credential resp).state.session = st.session) := by
  refine ⟨?_, fun st => rfl, ?_⟩
  · intro st hreach
    induction hreach with
    | init => intro _; rfl
    | step hr hs ih =>
        cases hs with
        | login credential resp =>
            cases credential with
            | none => exact ih
            | some tok =>
                cases resp with
                | ok email adminField principalField departmentField =>
                    intro hfalse
                    simp [handleCredentialResponse] at hfalse
                | httpError errField => exact ih
                | netError => exact ih
        | load resp =>
            rw [loadSuggestions_session]; exact ih
        | refresh resp =>
            rw [handleRefresh_session]; exact ih
        | create category title description resp loadResp =>
            rw [handleCreate_session]; exact ih
        | del sid confirmed resp =>
            rw [handleDelete_session]; exact ih
        | statusChange sid status resp =>
            rw [handleStatusChange_session]; exact ih
        | view sid resp =>
            rw [handleView_session]; exact ih
        | closeV => exact ih
        | logout => intro _; rfl
  · intro st credential resp hfail
    cases credential with
    | none => rfl
    | some tok =>
        cases resp with
        | ok email adminField principalField departmentField =>
            rcases hfail with h | h
            · exact absurd h (by simp)
            · exact absurd h (by simp [AuthExchange.isFailure])
        | httpError errField => rfl
        | netError => rfl

/-- C9 witness: the invariant at the initial state, logout from a logged-in
state, and a failed exchange leaving the initial session untouched. -/
theorem c9_session_atomicity_witness :
    initialState.session = emptySession ∧
    (handleLogout
        ⟨⟨true, "p@ybit.ac.in", true, true, "CS"⟩, [], none, none,
          false⟩).state.session = emptySession ∧
    (handleCredentialResponse initialState (some "tok")
        (AuthExchange.httpError none)).state.session = initialState.session :=
  ⟨c9_session_atomicity.1 _ Reachable.init rfl,
   c9_session_atomicity.2.1 _,
   c9_session_atomicity.2.2 _ _ _ (Or.inr rfl)⟩

/-- C10: a 2xx list response whose JSON body is not an array sets the cache
to the empty list, emits no notification, and leaves the current
notification slot unchanged — the malformed shape is silently treated as an
empty result. -/
theorem c10_nonarray_body (st : AppState) (h : ¬ st.session.email = "") :
    (loadSuggestions st (LoadResponse.ok LoadBody.notArray)).state.suggestions
        = [] ∧
    (loadSuggestions st (LoadResponse.ok LoadBody.notArray)).emitted = [] ∧
    (loadSuggestions st (LoadResponse.ok LoadBody.notArray)).state.notification
        = st.notification := by
  refine ⟨?_, ?_, ?_⟩ <;> simp [loadSuggestions, h]

/-- C10 witness: the theorem applied to a concrete logged-in state. -/
theorem c10_nonarray_body_witness :
    (loadSuggestions
        ⟨⟨true, "s@ybit.ac.in", true, false, "IT"⟩,
          [⟨"1", none, none, "other", "pending", "e", none, none, 1, none⟩],
          none, none, false⟩
        (LoadResponse.ok LoadBody.notArray)).state.suggestions = [] :=
  (c10_nonarray_body _ (by decide)).1

end YbitVoice
